import Mathlib

/-!
Verification development for the SecretStablePools stable_pool contract
(src/contracts/stable_pool/src/contract.rs and its data model in msg.rs).

Amounts are Uint128 values in the source; they are embedded as Nat together
with explicit bounds (< 2^128) and explicit wrap-around (% 2^128) exactly
where the source performs 128-bit operations.  Unchecked Rust u128
arithmetic that can overflow is embedded as the Outcome.panic result
(Rust aborts on overflow under overflow checks; in no build does it return
an error result).  Fallible paths that the source handles with an explicit
StdError are embedded as Outcome.err.
-/

/-- Native 128-bit amount bound (Uint128). -/
def U128Bound : Nat := 2 ^ 128

/-- Double-width intermediate bound (primitive_types::U256). -/
def U256Bound : Nat := 2 ^ 256

/-- Addresses (cosmwasm HumanAddr).  HumanAddr.default() is the empty string. -/
abbrev Addr := String

/-- Registry entry, msg.rs struct TokenInfo. -/
structure TokenInfo where
  address : Addr
  code_hash : String
  viewing_key : String
  decimals : Nat
deriving DecidableEq

/-- Deposit entry, msg.rs struct TokenAmount. -/
structure TokenAmount where
  address : Addr
  code_hash : String
  amount : Nat
deriving DecidableEq

/-- Pool configuration, msg.rs struct Config. -/
structure Config where
  admin : Addr
  swap_fee_nom : Nat
  swap_fee_denom : Nat
  is_halted : Bool
  lp_token_address : Addr
  lp_token_code_hash : String
deriving DecidableEq

/-- The several StdError::generic_err / StdError::unauthorized sites of
contract.rs, one constructor per error site. -/
inductive PoolError where
  | unknownSourceAsset
  | unknownDestinationAsset
  | unknownLiquidityToken
  | tokenNotSupported
  | cannotNormalizeDeposit
  | cannotCalculateWithdraw
  | unauthorized
deriving DecidableEq

/-- Result of a handle entry point: an explicit StdResult error (err), a Rust
panic / abort on unchecked arithmetic (panic), or success. -/
inductive Outcome (α : Type) where
  | ok (val : α)
  | err (e : PoolError)
  | panic
deriving DecidableEq

/-- Effect instructions emitted by the contract (snip20 messages), reduced to
the fields the accounting logic determines. -/
inductive Msg where
  | transferFrom (owner recipient : Addr) (amount : Nat) (token : Addr)
  | mint (recipient : Addr) (amount : Nat) (token : Addr)
  | registerReceive (codeHash : String) (token : Addr)
deriving DecidableEq

/-- Embeds contract.rs lines 407-415 of try_swap: decimal re-scaling of the
source amount between the two native scales.  10u128.pow and the
multiplication are unchecked u128 operations, hence panic on overflow. -/
def normalizeSwapAmount (srcDec dstDec a : Nat) : Outcome Nat :=
  if dstDec < srcDec then
    if 10 ^ (srcDec - dstDec) < U128Bound then
      Outcome.ok (a / 10 ^ (srcDec - dstDec))
    else Outcome.panic
  else if srcDec < dstDec then
    if 10 ^ (dstDec - srcDec) < U128Bound then
      if a * 10 ^ (dstDec - srcDec) < U128Bound then
        Outcome.ok (a * 10 ^ (dstDec - srcDec))
      else Outcome.panic
    else Outcome.panic
  else Outcome.ok a

/-- Embeds contract.rs line 420 of try_swap: dst_amount * swap_fee_nom /
swap_fee_denom in unchecked u128 arithmetic (panic on product overflow and
on division by zero). -/
def applySwapFee (feeNom feeDenom a : Nat) : Outcome Nat :=
  if a * feeNom < U128Bound then
    if feeDenom = 0 then Outcome.panic
    else Outcome.ok (a * feeNom / feeDenom)
  else Outcome.panic

/-- The quote part of try_swap on raw decimals and fee parameters:
re-scale, then apply the fee. -/
def quoteSwap (srcDec dstDec feeNom feeDenom a : Nat) : Outcome Nat :=
  match normalizeSwapAmount srcDec dstDec a with
  | Outcome.ok d => applySwapFee feeNom feeDenom d
  | r => r

/-- Embeds contract.rs try_swap (lines 388-420, the amount computation; the
message construction below line 420 is unfinished in the source): the two
registry lookups are .unwrap() calls, hence panic when absent. -/
def trySwap (supported : List TokenInfo) (cfg : Config) (srcAmount : Nat)
    (srcToken dstToken : Addr) : Outcome Nat :=
  match supported.find? (fun t => t.address == srcToken) with
  | none => Outcome.panic
  | some src =>
    match supported.find? (fun t => t.address == dstToken) with
    | none => Outcome.panic
    | some dst =>
      quoteSwap src.decimals dst.decimals cfg.swap_fee_nom cfg.swap_fee_denom srcAmount

/-- Embeds the Snip20ReceiveMsg::Swap branch of receive_snip20
(contract.rs lines 148-181): membership checks on the sending token contract
and on the destination token, then try_swap. -/
def receiveSnip20Swap (supported : List TokenInfo) (cfg : Config)
    (tokenSender : Addr) (amount : Nat) (toToken : Addr) : Outcome Nat :=
  if supported.any (fun t => t.address == tokenSender) then
    if supported.any (fun t => t.address == toToken) then
      trySwap supported cfg amount tokenSender toToken
    else Outcome.err PoolError.unknownDestinationAsset
  else Outcome.err PoolError.unknownSourceAsset

/-- Modelled from the spec: u256_math::mul is declared in lib.rs but its file
is absent from the sources; per spec section 4.1, wide multiplication over the
double-width (256-bit) integer returns None when the product overflows that
width, and propagates None operands. -/
def u256Mul (a b : Option Nat) : Option Nat :=
  match a, b with
  | some x, some y => if x * y < U256Bound then some (x * y) else none
  | _, _ => none

/-- Modelled from the spec: u256_math::div is declared in lib.rs but its file
is absent from the sources; per spec section 4.1, wide division returns None
when the divisor is zero (floor division otherwise), and propagates None
operands. -/
def u256Div (a b : Option Nat) : Option Nat :=
  match a, b with
  | some x, some y => if y = 0 then none else some (x / y)
  | _, _ => none

/-- Embeds the per-asset refund computation of try_withdraw_liquidity
(contract.rs lines 323-350): div(mul(pool, share), total) in U256, explicit
generic_err when that chain yields None, and then
Uint128(withdrawn_asset_amount.low_u128()) - the low 128 bits. -/
def withdrawRefund (poolAmount shareAmount totalShare : Nat) : Outcome Nat :=
  match u256Div (u256Mul (some poolAmount) (some shareAmount)) (some totalShare) with
  | none => Outcome.err PoolError.cannotCalculateWithdraw
  | some w => Outcome.ok (w % U128Bound)

/-- Embeds try_withdraw_liquidity (contract.rs lines 310-385) restricted to
its accounting result: the refund amounts for the two pools.  The pool
balances and the share-token total supply are externally queried values and
enter as parameters. -/
def tryWithdrawLiquidity (pool0 pool1 shareAmount totalShare : Nat) :
    Outcome (Nat × Nat) :=
  match withdrawRefund pool0 shareAmount totalShare with
  | Outcome.ok r0 =>
    match withdrawRefund pool1 shareAmount totalShare with
    | Outcome.ok r1 => Outcome.ok (r0, r1)
    | Outcome.err e => Outcome.err e
    | Outcome.panic => Outcome.panic
  | Outcome.err e => Outcome.err e
  | Outcome.panic => Outcome.panic

/-- Embeds the WithdrawLiquidity branch of receive_snip20 (contract.rs lines
182-192): the sending contract must be the bound share token. -/
def receiveSnip20Withdraw (cfg : Config) (tokenSender : Addr) (amount : Nat)
    (pool0 pool1 totalShare : Nat) : Outcome (Nat × Nat) :=
  if tokenSender == cfg.lp_token_address then
    tryWithdrawLiquidity pool0 pool1 amount totalShare
  else Outcome.err PoolError.unknownLiquidityToken

/-- Embeds the first loop of try_provide_liquidity (contract.rs lines
236-259): validate each deposited token against the registry and collect the
TransferFrom messages, failing on the first unsupported token. -/
def collectDeposits (supported : List TokenInfo) (sender contractAddr : Addr) :
    List TokenAmount → Outcome (List Msg)
  | [] => Outcome.ok []
  | d :: rest =>
    if supported.any (fun t => t.address == d.address) then
      match collectDeposits supported sender contractAddr rest with
      | Outcome.ok ms =>
        Outcome.ok (Msg.transferFrom sender contractAddr d.amount d.address :: ms)
      | r => r
    else Outcome.err PoolError.tokenNotSupported

/-- Embeds the share loop of try_provide_liquidity (contract.rs lines
267-291): per deposit, look the token up again (.unwrap()), compute
factor = 10u128.pow(18 - decimals) (u32 subtraction then pow: aborts when
decimals exceed 18), checked_mul with an explicit generic_err on overflow,
and an unchecked Uint128 addition into the accumulator (panic on overflow). -/
def computeShare (supported : List TokenInfo) :
    List TokenAmount → Nat → Outcome Nat
  | [], acc => Outcome.ok acc
  | d :: rest, acc =>
    match supported.find? (fun t => t.address == d.address) with
    | none => Outcome.panic
    | some t =>
      if t.decimals ≤ 18 then
        if d.amount * 10 ^ (18 - t.decimals) < U128Bound then
          if acc + d.amount * 10 ^ (18 - t.decimals) < U128Bound then
            computeShare supported rest (acc + d.amount * 10 ^ (18 - t.decimals))
          else Outcome.panic
        else Outcome.err PoolError.cannotNormalizeDeposit
      else Outcome.panic

/-- Embeds try_provide_liquidity (contract.rs lines 226-308): validate and
collect transfers, compute the share, then append the mint message to the
caller on the LP token. -/
def tryProvideLiquidity (supported : List TokenInfo) (cfg : Config)
    (sender contractAddr : Addr) (deposits : List TokenAmount) :
    Outcome (List Msg) :=
  match collectDeposits supported sender contractAddr deposits with
  | Outcome.ok tms =>
    match computeShare supported deposits 0 with
    | Outcome.ok share =>
      Outcome.ok (tms ++ [Msg.mint sender share cfg.lp_token_address])
    | Outcome.err e => Outcome.err e
    | Outcome.panic => Outcome.panic
  | Outcome.err e => Outcome.err e
  | Outcome.panic => Outcome.panic

/-- Config with the lp token address replaced, all other fields kept. -/
def setLp (c : Config) (lp : Addr) : Config :=
  ⟨c.admin, c.swap_fee_nom, c.swap_fee_denom, c.is_halted, lp, c.lp_token_code_hash⟩

/-- Config with the is_halted flag replaced, all other fields kept. -/
def setHalted (c : Config) (b : Bool) : Config :=
  ⟨c.admin, c.swap_fee_nom, c.swap_fee_denom, b, c.lp_token_address, c.lp_token_code_hash⟩

/-- Embeds try_post_initialize (contract.rs lines 197-223): when the lp token
address is already bound (not HumanAddr::default(), the empty string) the call
is unauthorized and the stored config is unchanged; otherwise the caller is
recorded as the lp token and a RegisterReceive message to it is emitted.
Returns the resulting stored config together with the outcome. -/
def tryPostInit (cfg : Config) (sender : Addr) : Config × Outcome (List Msg) :=
  if cfg.lp_token_address = "" then
    (setLp cfg sender, Outcome.ok [Msg.registerReceive cfg.lp_token_code_hash sender])
  else (cfg, Outcome.err PoolError.unauthorized)

/-- The canonical (18-decimal) value of one deposit under a registry: the
amount multiplied by 10^(18 - registered decimals); 0 when unregistered. -/
def canonicalDeposit (supported : List TokenInfo) (d : TokenAmount) : Nat :=
  match supported.find? (fun t => t.address == d.address) with
  | some t => d.amount * 10 ^ (18 - t.decimals)
  | none => 0

/-- Sum of the canonical deposit values of a deposit list. -/
def canonicalSum (supported : List TokenInfo) (deposits : List TokenAmount) : Nat :=
  (deposits.map (canonicalDeposit supported)).sum

/-- The TransferFrom messages the deposit loop produces, in order. -/
def depositMsgs (sender contractAddr : Addr) (deposits : List TokenAmount) :
    List Msg :=
  deposits.map (fun d => Msg.transferFrom sender contractAddr d.amount d.address)

/-- Sample registry token: 6 native decimals. -/
def tokenA6 : TokenInfo := ⟨"A", "hashA", "vk", 6⟩

/-- Sample registry token: 18 native decimals. -/
def tokenB18 : TokenInfo := ⟨"B", "hashB", "vk", 18⟩

/-- Sample config with the 997/1000 retention fee. -/
def cfg997 : Config := ⟨"admin", 997, 1000, false, "lp", "lph"⟩

/-- Helper: a successful decimal re-scaling yields exactly the multiply-up /
floor-divide-down value. -/
lemma normalizeSwapAmount_ok_eq (srcDec dstDec a d : Nat)
    (h : normalizeSwapAmount srcDec dstDec a = Outcome.ok d) :
    d = if srcDec ≤ dstDec then a * 10 ^ (dstDec - srcDec)
        else a / 10 ^ (srcDec - dstDec) := by
  unfold normalizeSwapAmount at h
  split at h
  · split at h
    · injection h with h
      rw [if_neg (by omega)]
      exact h.symm
    · exact Outcome.noConfusion h
  · split at h
    · split at h
      · split at h
        · injection h with h
          rw [if_pos (by omega)]
          exact h.symm
        · exact Outcome.noConfusion h
      · exact Outcome.noConfusion h
    · injection h with h
      have he : srcDec = dstDec := by omega
      rw [if_pos (by omega), he, Nat.sub_self, pow_zero, mul_one]
      exact h.symm

/-- Helper: a successful fee application yields floor(a * nom / denom). -/
lemma applySwapFee_ok_eq (feeNom feeDenom a v : Nat)
    (h : applySwapFee feeNom feeDenom a = Outcome.ok v) :
    v = a * feeNom / feeDenom := by
  unfold applySwapFee at h
  split at h
  · split at h
    · exact Outcome.noConfusion h
    · injection h with h
      exact h.symm
  · exact Outcome.noConfusion h

/-- Helper: a successful quote equals the re-scaled amount times the fee
ratio, floor-divided. -/
lemma quoteSwap_ok_eq (srcDec dstDec feeNom feeDenom a v : Nat)
    (h : quoteSwap srcDec dstDec feeNom feeDenom a = Outcome.ok v) :
    v = (if srcDec ≤ dstDec then a * 10 ^ (dstDec - srcDec)
         else a / 10 ^ (srcDec - dstDec)) * feeNom / feeDenom := by
  unfold quoteSwap at h
  cases hn : normalizeSwapAmount srcDec dstDec a with
  | ok d =>
    rw [hn] at h
    rw [← normalizeSwapAmount_ok_eq srcDec dstDec a d hn]
    exact applySwapFee_ok_eq feeNom feeDenom d v h
  | err e =>
    rw [hn] at h
    exact Outcome.noConfusion h
  | panic =>
    rw [hn] at h
    exact Outcome.noConfusion h

/-- Helper: trySwap on registered source and destination tokens, when it
succeeds, returns the claim formula value. -/
lemma trySwap_ok_eq (supported : List TokenInfo) (cfg : Config)
    (a v : Nat) (srcA dstA : Addr) (src dst : TokenInfo)
    (hsrc : supported.find? (fun t => t.address == srcA) = some src)
    (hdst : supported.find? (fun t => t.address == dstA) = some dst)
    (h : trySwap supported cfg a srcA dstA = Outcome.ok v) :
    v = (if src.decimals ≤ dst.decimals then a * 10 ^ (dst.decimals - src.decimals)
         else a / 10 ^ (src.decimals - dst.decimals))
        * cfg.swap_fee_nom / cfg.swap_fee_denom := by
  unfold trySwap at h
  rw [hsrc, hdst] at h
  exact quoteSwap_ok_eq _ _ _ _ _ _ h

/-- Claim C2: for every swap of a source amount between two registered tokens,
the quoted destination amount equals the source amount re-scaled by
10^|d_dst - d_src| (multiplying when the destination has more decimals,
floor-dividing when fewer), times fee_nom, floor-divided by fee_denom. -/
theorem swap_quote_formula (supported : List TokenInfo) (cfg : Config)
    (a v : Nat) (srcA dstA : Addr) (src dst : TokenInfo)
    (hsrc : supported.find? (fun t => t.address == srcA) = some src)
    (hdst : supported.find? (fun t => t.address == dstA) = some dst)
    (h : trySwap supported cfg a srcA dstA = Outcome.ok v) :
    v = (if src.decimals ≤ dst.decimals then a * 10 ^ (dst.decimals - src.decimals)
         else a / 10 ^ (src.decimals - dst.decimals))
        * cfg.swap_fee_nom / cfg.swap_fee_denom :=
  trySwap_ok_eq supported cfg a v srcA dstA src dst hsrc hdst h

/-- Witness for C2: the spec scenario - swapping 1_000_000 units of the
6-decimal token into the 18-decimal token at fee 997/1000 quotes exactly
997_000_000_000_000_000. -/
theorem swap_quote_formula_witness :
    trySwap [tokenA6, tokenB18] cfg997 1000000 "A" "B"
      = Outcome.ok 997000000000000000 ∧
    (997000000000000000 : Nat) =
      (if tokenA6.decimals ≤ tokenB18.decimals
       then 1000000 * 10 ^ (tokenB18.decimals - tokenA6.decimals)
       else 1000000 / 10 ^ (tokenA6.decimals - tokenB18.decimals))
        * cfg997.swap_fee_nom / cfg997.swap_fee_denom :=
  ⟨by decide,
   swap_quote_formula [tokenA6, tokenB18] cfg997 1000000 997000000000000000
     "A" "B" tokenA6 tokenB18 (by decide) (by decide) (by decide)⟩

/-- Claim C5 (code bug): when the decimal up-scaling multiplication or the fee
multiplication does not fit u128, try_swap performs an unchecked u128
multiplication - it aborts (or wraps), it does not return an explicit
arithmetic-overflow error result.  First conjunct: up-scaling 10^27 six-decimal
units to 18 decimals needs 10^39 >= 2^128.  Second conjunct: the fee
multiplication 2^127 * 997 >= 2^128. -/
theorem swap_overflow_aborts_code_bug :
    trySwap [tokenA6, tokenB18] cfg997 (10 ^ 27) "A" "B" = Outcome.panic ∧
    trySwap [tokenA6, tokenB18] cfg997 (2 ^ 127) "A" "A" = Outcome.panic := by
  decide

/-- Claim C10: a ProvideLiquidity request with an empty deposits list
succeeds, emits no TransferFrom instruction, and emits exactly one Mint
instruction for zero shares to the caller on the LP token. -/
theorem provide_liquidity_empty_deposits (supported : List TokenInfo)
    (cfg : Config) (sender contractAddr : Addr) :
    tryProvideLiquidity supported cfg sender contractAddr []
      = Outcome.ok [Msg.mint sender 0 cfg.lp_token_address] := rfl

/-- Claim C7 (code bug): none of the three state-affecting operations
consults the is_halted flag - their outcome is identical whatever the flag is
set to, so no operation ever fails with a pool-halted error. -/
theorem operations_ignore_is_halted (supported : List TokenInfo) (cfg : Config)
    (b : Bool) (sender contractAddr tokenSender : Addr)
    (deposits : List TokenAmount) (amount : Nat)
    (toToken : Addr) (pool0 pool1 totalShare : Nat) :
    tryProvideLiquidity supported (setHalted cfg b) sender contractAddr deposits
      = tryProvideLiquidity supported cfg sender contractAddr deposits ∧
    receiveSnip20Swap supported (setHalted cfg b) tokenSender amount toToken
      = receiveSnip20Swap supported cfg tokenSender amount toToken ∧
    receiveSnip20Withdraw (setHalted cfg b) tokenSender amount pool0 pool1 totalShare
      = receiveSnip20Withdraw cfg tokenSender amount pool0 pool1 totalShare :=
  ⟨rfl, rfl, rfl⟩

/-- Claim C6: the PostInitialize callback binds the share token exactly once.
When the binding is unset (the HumanAddr::default() sentinel, the empty
string), the caller is recorded as the LP token and the other config fields
are kept; when it is already set, the call fails unauthorized and the stored
config - binding included - is unchanged. -/
theorem post_init_binds_once (cfg : Config) (sender : Addr) :
    (cfg.lp_token_address = "" →
      tryPostInit cfg sender =
        (setLp cfg sender,
         Outcome.ok [Msg.registerReceive cfg.lp_token_code_hash sender])) ∧
    (cfg.lp_token_address ≠ "" →
      tryPostInit cfg sender = (cfg, Outcome.err PoolError.unauthorized)) := by
  constructor
  · intro h
    unfold tryPostInit
    rw [if_pos h]
  · intro h
    unfold tryPostInit
    rw [if_neg h]

/-- Witness for C6: a second PostInitialize call against a config whose LP
token is already bound fails unauthorized and leaves the config unchanged. -/
theorem post_init_binds_once_witness :
    tryPostInit cfg997 "attacker" = (cfg997, Outcome.err PoolError.unauthorized) :=
  (post_init_binds_once cfg997 "attacker").2 (by decide)

/-- Claim C4 (code bug): when the proportional refund floor(b * s / T) does
not fit u128, try_withdraw_liquidity does not fail - it silently returns the
low 128 bits.  With both pool balances 10^38, withdrawn share amount 10^38 and
total supply 1, the true quotient is 10^76 but the request succeeds and
returns 10^76 mod 2^128, a strictly smaller value. -/
theorem withdraw_truncation_code_bug :
    tryWithdrawLiquidity (10 ^ 38) (10 ^ 38) (10 ^ 38) 1
      = Outcome.ok (10 ^ 76 % 2 ^ 128, 10 ^ 76 % 2 ^ 128) ∧
    10 ^ 76 % 2 ^ 128 < 10 ^ 76 := by decide

/-- Helper: under the Uint128 bounds on the inputs, the per-asset refund is
the floor quotient reduced mod 2^128, and the computation fails exactly when
the total share supply is zero. -/
lemma withdrawRefund_eq (b s T : Nat) (hb : b < U128Bound) (hs : s < U128Bound) :
    withdrawRefund b s T =
      if T = 0 then Outcome.err PoolError.cannotCalculateWithdraw
      else Outcome.ok (b * s / T % U128Bound) := by
  have hmul : b * s < U256Bound := by
    have h1 : b * s ≤ (2 ^ 128 - 1) * (2 ^ 128 - 1) := by
      have hb1 : b ≤ 2 ^ 128 - 1 := by
        have := hb
        unfold U128Bound at this
        omega
      have hs1 : s ≤ 2 ^ 128 - 1 := by
        have := hs
        unfold U128Bound at this
        omega
      exact Nat.mul_le_mul hb1 hs1
    have h2 : (2 ^ 128 - 1) * (2 ^ 128 - 1) < U256Bound := by decide
    omega
  have hm : u256Mul (some b) (some s) = some (b * s) := by
    simp [u256Mul, hmul]
  by_cases hT : T = 0
  · subst hT
    have hd : u256Div (some (b * s)) (some 0) = none := by
      simp [u256Div]
    simp [withdrawRefund, hm, hd]
  · have hd : u256Div (some (b * s)) (some T) = some (b * s / T) := by
      simp [u256Div, hT]
    simp [withdrawRefund, hm, hd, hT]

/-- Claim C1 (amended): for Uint128-bounded pool balances and share amount,
withdrawal fails with an arithmetic error exactly when the total share supply
is zero (returning no refunds), and otherwise returns floor(b_i * s / T)
reduced mod 2^128 for each pool - which is exactly floor(b_i * s / T)
whenever the withdrawn share amount does not exceed the total supply. -/
theorem withdraw_refund_mod_128 (b0 b1 s T : Nat)
    (hb0 : b0 < U128Bound) (hb1 : b1 < U128Bound) (hs : s < U128Bound) :
    (T = 0 → tryWithdrawLiquidity b0 b1 s T
        = Outcome.err PoolError.cannotCalculateWithdraw) ∧
    (T ≠ 0 → tryWithdrawLiquidity b0 b1 s T
        = Outcome.ok (b0 * s / T % U128Bound, b1 * s / T % U128Bound)) ∧
    (T ≠ 0 → s ≤ T → tryWithdrawLiquidity b0 b1 s T
        = Outcome.ok (b0 * s / T, b1 * s / T)) := by
  have key : T ≠ 0 → tryWithdrawLiquidity b0 b1 s T
      = Outcome.ok (b0 * s / T % U128Bound, b1 * s / T % U128Bound) := by
    intro hT
    simp [tryWithdrawLiquidity, withdrawRefund_eq b0 s T hb0 hs,
          withdrawRefund_eq b1 s T hb1 hs, hT]
  refine ⟨?_, key, ?_⟩
  · intro hT
    subst hT
    simp [tryWithdrawLiquidity, withdrawRefund_eq b0 s 0 hb0 hs]
  · intro hT hsT
    have e0 : b0 * s / T ≤ b0 := by
      calc b0 * s / T ≤ b0 * T / T :=
            Nat.div_le_div_right (Nat.mul_le_mul_left b0 hsT)
        _ = b0 := Nat.mul_div_cancel b0 (Nat.pos_of_ne_zero hT)
    have e1 : b1 * s / T ≤ b1 := by
      calc b1 * s / T ≤ b1 * T / T :=
            Nat.div_le_div_right (Nat.mul_le_mul_left b1 hsT)
        _ = b1 := Nat.mul_div_cancel b1 (Nat.pos_of_ne_zero hT)
    rw [key hT, Nat.mod_eq_of_lt (lt_of_le_of_lt e0 hb0),
        Nat.mod_eq_of_lt (lt_of_le_of_lt e1 hb1)]

/-- Witness for C1 (amended): withdrawing 10 of 40 outstanding shares from
pools of 100 and 50 refunds exactly 25 and 12. -/
theorem withdraw_refund_mod_128_witness :
    tryWithdrawLiquidity 100 50 10 40 = Outcome.ok (25, 12) :=
  (withdraw_refund_mod_128 100 50 10 40 (by decide) (by decide) (by decide)).2.2
    (by decide) (by decide)

/-- Counterexample for C1 as stated: with pool balances 2^128 - 1 and 0,
withdrawn share amount 2^128 - 1 and total supply 1, the operation succeeds
but the first refund is 1 - the low 128 bits - not the floor quotient
(2^128 - 1)^2. -/
theorem withdraw_refund_not_floor_counterexample :
    tryWithdrawLiquidity (2 ^ 128 - 1) 0 (2 ^ 128 - 1) 1 = Outcome.ok (1, 0) ∧
    (1 : Nat) ≠ (2 ^ 128 - 1) * (2 ^ 128 - 1) / 1 := by decide

/-- Claim C9: for fixed tokens and fee configuration the swap quote is
monotone - whenever both quotes succeed, a larger source amount never quotes
a smaller destination amount. -/
theorem swap_quote_monotone (supported : List TokenInfo) (cfg : Config)
    (srcA dstA : Addr) (a1 a2 v1 v2 : Nat) (hle : a1 ≤ a2)
    (h1 : trySwap supported cfg a1 srcA dstA = Outcome.ok v1)
    (h2 : trySwap supported cfg a2 srcA dstA = Outcome.ok v2) : v1 ≤ v2 := by
  cases hsrc : supported.find? (fun t => t.address == srcA) with
  | none =>
    unfold trySwap at h1
    rw [hsrc] at h1
    exact Outcome.noConfusion h1
  | some src =>
    cases hdst : supported.find? (fun t => t.address == dstA) with
    | none =>
      unfold trySwap at h1
      rw [hsrc, hdst] at h1
      exact Outcome.noConfusion h1
    | some dst =>
      rw [trySwap_ok_eq supported cfg a1 v1 srcA dstA src dst hsrc hdst h1,
          trySwap_ok_eq supported cfg a2 v2 srcA dstA src dst hsrc hdst h2]
      refine Nat.div_le_div_right (Nat.mul_le_mul_right _ ?_)
      by_cases hcase : src.decimals ≤ dst.decimals
      · rw [if_pos hcase, if_pos hcase]
        exact Nat.mul_le_mul_right _ hle
      · rw [if_neg hcase, if_neg hcase]
        exact Nat.div_le_div_right hle

/-- Witness for C9: quoting 1_000_000 and then 2_000_000 source units across
the 6-to-18-decimal pair yields non-decreasing destination amounts. -/
theorem swap_quote_monotone_witness :
    (997000000000000000 : Nat) ≤ 1994000000000000000 :=
  swap_quote_monotone [tokenA6, tokenB18] cfg997 "A" "B" 1000000 2000000
    997000000000000000 1994000000000000000 (by decide) (by decide) (by decide)

/-- Counterexample for C8 as stated: with a registry containing only the
6-decimal token A, a swap from A into A itself passes both membership checks
and proceeds as a normal swap (1000 units at fee 997/1000 quote 997) - it is
not rejected with an unsupported-token error. -/
theorem same_token_swap_not_rejected :
    receiveSnip20Swap [tokenA6] cfg997 "A" 1000 "A" = Outcome.ok 997 ∧
    Outcome.ok (997 : Nat) ≠ Outcome.err PoolError.unknownSourceAsset ∧
    Outcome.ok (997 : Nat) ≠ Outcome.err PoolError.unknownDestinationAsset := by
  decide

/-- Claim C8 (amended): the swap receive path requires both the source token
(the sending contract) and the destination token to be registry members,
rejecting with the corresponding unknown-asset error otherwise; it performs
no distinctness check - whenever both are members, including when they are
the same token, it proceeds into try_swap. -/
theorem swap_validation_membership_only (supported : List TokenInfo)
    (cfg : Config) (tokenSender toToken : Addr) (amount : Nat) :
    (supported.any (fun t => t.address == tokenSender) = false →
      receiveSnip20Swap supported cfg tokenSender amount toToken
        = Outcome.err PoolError.unknownSourceAsset) ∧
    (supported.any (fun t => t.address == tokenSender) = true →
      supported.any (fun t => t.address == toToken) = false →
      receiveSnip20Swap supported cfg tokenSender amount toToken
        = Outcome.err PoolError.unknownDestinationAsset) ∧
    (supported.any (fun t => t.address == tokenSender) = true →
      supported.any (fun t => t.address == toToken) = true →
      receiveSnip20Swap supported cfg tokenSender amount toToken
        = trySwap supported cfg amount tokenSender toToken) := by
  refine ⟨?_, ?_, ?_⟩
  · intro h1
    simp [receiveSnip20Swap, h1]
  · intro h1 h2
    simp [receiveSnip20Swap, h1, h2]
  · intro h1 h2
    simp [receiveSnip20Swap, h1, h2]

/-- Witness for C8 (amended): both tokens registered - here the same
registered token - and the request is handed to try_swap. -/
theorem swap_validation_membership_only_witness :
    receiveSnip20Swap [tokenA6] cfg997 "A" 500 "A"
      = trySwap [tokenA6] cfg997 500 "A" "A" :=
  (swap_validation_membership_only [tokenA6] cfg997 "A" "A" 500).2.2
    (by decide) (by decide)

/-- Helper: the canonical sum of a cons splits off the head deposit. -/
lemma canonicalSum_cons (supported : List TokenInfo) (d : TokenAmount)
    (rest : List TokenAmount) :
    canonicalSum supported (d :: rest)
      = canonicalDeposit supported d + canonicalSum supported rest := by
  simp [canonicalSum]

/-- Helper: a token that passes the registry membership test is found by the
registry lookup. -/
lemma find_of_any (supported : List TokenInfo) (p : TokenInfo → Bool)
    (h : supported.any p = true) : ∃ t, supported.find? p = some t := by
  cases hf : supported.find? p with
  | some t => exact ⟨t, rfl⟩
  | none =>
    rw [List.any_eq_true] at h
    obtain ⟨x, hx, hpx⟩ := h
    exact absurd hpx (List.find?_eq_none.mp hf x hx)

/-- Helper: the validation loop succeeds on all-registered deposits and
produces exactly the TransferFrom messages, in deposit order. -/
lemma collectDeposits_ok (supported : List TokenInfo) (sender contractAddr : Addr) :
    ∀ (deposits : List TokenAmount),
      (∀ d ∈ deposits, supported.any (fun t => t.address == d.address) = true) →
      collectDeposits supported sender contractAddr deposits
        = Outcome.ok (depositMsgs sender contractAddr deposits) := by
  intro deposits
  induction deposits with
  | nil =>
    intro _
    simp [collectDeposits, depositMsgs]
  | cons d rest ih =>
    intro hreg
    have h1 := hreg d (List.mem_cons_self d rest)
    have h2 := ih (fun x hx => hreg x (List.mem_cons_of_mem d hx))
    simp [collectDeposits, h1, h2, depositMsgs]

/-- Helper: with every deposited token registered at no more than 18 decimals
and the running canonical total below 2^128, the share loop returns the
accumulator plus the canonical sum of the deposits. -/
lemma computeShare_ok (supported : List TokenInfo)
    (hdec : ∀ t ∈ supported, t.decimals ≤ 18) (deposits : List TokenAmount) :
    ∀ (acc : Nat),
      (∀ d ∈ deposits, supported.any (fun t => t.address == d.address) = true) →
      acc + canonicalSum supported deposits < U128Bound →
      computeShare supported deposits acc
        = Outcome.ok (acc + canonicalSum supported deposits) := by
  induction deposits with
  | nil =>
    intro acc _ _
    simp [computeShare, canonicalSum]
  | cons d rest ih =>
    intro acc hreg hbound
    obtain ⟨t, ht⟩ := find_of_any supported _ (hreg d (List.mem_cons_self d rest))
    have htd : t.decimals ≤ 18 := hdec t (List.mem_of_find?_eq_some ht)
    have hcd : canonicalDeposit supported d = d.amount * 10 ^ (18 - t.decimals) := by
      simp [canonicalDeposit, ht]
    rw [canonicalSum_cons] at hbound ⊢
    have hprod : d.amount * 10 ^ (18 - t.decimals) < U128Bound := by
      rw [← hcd]
      omega
    have haccb : acc + d.amount * 10 ^ (18 - t.decimals) < U128Bound := by
      rw [← hcd]
      omega
    have IH := ih (acc + d.amount * 10 ^ (18 - t.decimals))
      (fun x hx => hreg x (List.mem_cons_of_mem d hx))
      (by rw [← hcd]; omega)
    simp only [computeShare, ht]
    rw [if_pos htd, if_pos hprod, if_pos haccb, IH, hcd]
    congr 1
    omega

/-- Claim C3 (amended): when all deposited tokens are registered (at no more
than 18 decimals), ProvideLiquidity mints exactly the sum of the canonical
18-decimal deposit amounts whenever that sum fits the 128-bit width, and
fails with the explicit normalization-overflow error when a per-token
normalization product does not fit; when every per-token product fits but the
unchecked 128-bit running sum overflows, the operation does not return that
sum. -/
theorem provide_share_sum_when_fits (supported : List TokenInfo) (cfg : Config)
    (sender contractAddr : Addr) (deposits : List TokenAmount)
    (hreg : ∀ d ∈ deposits, supported.any (fun t => t.address == d.address) = true)
    (hdec : ∀ t ∈ supported, t.decimals ≤ 18) :
    (canonicalSum supported deposits < U128Bound →
      tryProvideLiquidity supported cfg sender contractAddr deposits
        = Outcome.ok (depositMsgs sender contractAddr deposits
            ++ [Msg.mint sender (canonicalSum supported deposits)
                  cfg.lp_token_address])) ∧
    (∀ d rest, deposits = d :: rest → U128Bound ≤ canonicalDeposit supported d →
      tryProvideLiquidity supported cfg sender contractAddr deposits
        = Outcome.err PoolError.cannotNormalizeDeposit) := by
  constructor
  · intro hsum
    have hc := collectDeposits_ok supported sender contractAddr deposits hreg
    have hs := computeShare_ok supported hdec deposits 0 hreg (by omega)
    simp [tryProvideLiquidity, hc, hs]
  · intro d rest hdr hover
    subst hdr
    obtain ⟨t, ht⟩ := find_of_any supported _ (hreg d (List.mem_cons_self d rest))
    have htd : t.decimals ≤ 18 := hdec t (List.mem_of_find?_eq_some ht)
    have hcd : canonicalDeposit supported d = d.amount * 10 ^ (18 - t.decimals) := by
      simp [canonicalDeposit, ht]
    have hprodover : ¬ d.amount * 10 ^ (18 - t.decimals) < U128Bound := by
      rw [← hcd]
      omega
    have hc := collectDeposits_ok supported sender contractAddr (d :: rest) hreg
    have hshare : computeShare supported (d :: rest) 0
        = Outcome.err PoolError.cannotNormalizeDeposit := by
      simp only [computeShare, ht]
      rw [if_pos htd, if_neg hprodover]
    simp [tryProvideLiquidity, hc, hshare]

/-- Sample registry token for the deposit scenario: 18 native decimals. -/
def tokenE18 : TokenInfo := ⟨"E", "hashE", "vk", 18⟩

/-- Sample registry token for the deposit scenario: 6 native decimals. -/
def tokenS6 : TokenInfo := ⟨"S", "hashS", "vk", 6⟩

/-- Counterexample for C3 as stated: two registered 18-decimal deposits of
2^127 each normalize fine per token, but their sum is 2^128 - the unchecked
128-bit accumulation aborts (or wraps), so the operation does not mint the
sum of the canonical deposit amounts. -/
theorem provide_share_sum_overflow_counterexample :
    tryProvideLiquidity [tokenE18] cfg997 "u" "p"
        [⟨"E", "hashE", 2 ^ 127⟩, ⟨"E", "hashE", 2 ^ 127⟩]
      = Outcome.panic ∧
    (Outcome.panic : Outcome (List Msg))
      ≠ Outcome.ok [Msg.transferFrom "u" "p" (2 ^ 127) "E",
                    Msg.transferFrom "u" "p" (2 ^ 127) "E",
                    Msg.mint "u" (2 ^ 128) "lp"] := by decide

/-- Witness for C3 (amended): the spec scenario - depositing 100 units of the
18-decimal token and 100 units of the 6-decimal token mints exactly
100 + 100_000_000_000_000 = 100_000_000_000_100 shares. -/
theorem provide_share_sum_when_fits_witness :
    tryProvideLiquidity [tokenE18, tokenS6] cfg997 "u" "p"
        [⟨"E", "hashE", 100⟩, ⟨"S", "hashS", 100⟩]
      = Outcome.ok (depositMsgs "u" "p" [⟨"E", "hashE", 100⟩, ⟨"S", "hashS", 100⟩]
          ++ [Msg.mint "u" (canonicalSum [tokenE18, tokenS6]
                [⟨"E", "hashE", 100⟩, ⟨"S", "hashS", 100⟩])
                cfg997.lp_token_address]) ∧
    canonicalSum [tokenE18, tokenS6] [⟨"E", "hashE", 100⟩, ⟨"S", "hashS", 100⟩]
      = 100000000000100 :=
  ⟨(provide_share_sum_when_fits [tokenE18, tokenS6] cfg997 "u" "p"
      [⟨"E", "hashE", 100⟩, ⟨"S", "hashS", 100⟩]
      (by decide) (by decide)).1 (by decide),
   by decide⟩
